import Mathlib

/-!
## Verification of the Tempo day-color program (`src/main.cpp`)

This file shallowly embeds the core logic of the repository:

* the local-time window resolver `getCustomTime` (src/main.cpp, lines 139-159),
  together with the semantics of the platform C library (newlib, as shipped on
  the ESP32 target) functions `mktime`, `localtime` and `strftime` under the
  process time zone `"CET-1CEST,M3.5.0,M10.5.0/3"` that the program installs
  with `setTimeZone(TIME_ZONE)` before any resolver call;
* the URL construction and HTTP/JSON processing of `getTempoDayColor`
  (lines 175-195) and `getJsonDocumentFromHTTPRequest` (lines 161-173), plus
  the older variant `getTempoDayColor` (second file part, lines 402-450);
* the Wi-Fi supervisor handlers `initWiFi` / `WiFiDisconnected` (lines 93-115)
  and the `setup` orchestration (lines 201-245) as action traces.

Machine integers: the target is a 32-bit `time_t` platform, so the embedding
uses unbounded `Int` and all quantified statements are restricted to the
device-representable era (days 366..24887 since 1970-01-01, i.e. the years
1971..2038, within the 2038 overflow horizon); no arithmetic overflows in
that range, hence no wrap-around modelling is needed.

Calendar arithmetic: newlib's `validate_structure` month/day normalisation
and its days-since-epoch summation are represented extensionally by the
standard civil-calendar bijection (`daysFromCivil` / `civilFromDays`,
Hinnant's algorithm); both compute the same linear day count, and the
round-trip is machine-checked on the whole quantified range in the fact
bank below.
-/

namespace Tempo

/-! ## Civil calendar arithmetic (days since 1970-01-01) -/

/-- Day count since 1970-01-01 of a civil date, linear in `d` (day overflow
such as February 30 therefore rolls into the next month exactly as newlib's
`validate_structure` normalisation does). Hinnant's algorithm. -/
def daysFromCivil (y m d : ℤ) : ℤ :=
  let yy := y - (if m ≤ 2 then 1 else 0)
  let era := yy/ 400
  let yoe := yy - era * 400
  let doy := (153 * (m + (if 2 < m then -3 else 9)) + 2)/ 5 + d - 1
  let doe := yoe * 365 + yoe/ 4 - yoe/ 100 + doy
  era * 146097 + doe - 719468

/-- Civil date (year, month, day) of a day count since 1970-01-01.
Hinnant's algorithm, inverse of `daysFromCivil` on valid dates. -/
def civilFromDays (z : ℤ) : ℤ × ℤ × ℤ :=
  let zz := z + 719468
  let era := zz/ 146097
  let doe := zz - era * 146097
  let yoe := (doe - doe/ 1460 + doe/ 36524 - doe/ 146096)/ 365
  let y := yoe + era * 400
  let doy := doe - (365 * yoe + yoe/ 4 - yoe/ 100)
  let mp := (5 * doy + 2)/ 153
  let d := doy - (153 * mp + 2)/ 5 + 1
  let m := mp + (if mp < 10 then 3 else -9)
  (y + (if m ≤ 2 then 1 else 0), m, d)

/-- Day of week of a day count; 0 = Sunday (1970-01-01 was a Thursday = 4). -/
def dow (z : ℤ) : ℤ := (z + 4)% 7

/-! ## The active POSIX time zone `"CET-1CEST,M3.5.0,M10.5.0/3"`

Standard time CET = UTC+1 (newlib rule offset -3600), daylight CEST = UTC+2
(rule offset -7200).  DST starts the last Sunday of March at 02:00 local
standard time and ends the last Sunday of October at 03:00 local daylight
time (the `/3` suffix).  `changeStart`/`changeEnd` are the UTC instants of
the two transitions of a year, exactly as newlib's `__tzcalc_limits`
computes them (`days * 86400 + rule.s + rule.offset`). -/

/-- Day number of the last Sunday of March of year `y` (M3.5.0). -/
def lastSunMar (y : ℤ) : ℤ :=
  let z := daysFromCivil y 3 31
  z - dow z

/-- Day number of the last Sunday of October of year `y` (M10.5.0). -/
def lastSunOct (y : ℤ) : ℤ :=
  let z := daysFromCivil y 10 31
  z - dow z

/-- UTC instant (seconds) at which DST starts in year `y`:
02:00 local standard time on the last Sunday of March, i.e. 01:00 UTC. -/
def changeStart (y : ℤ) : ℤ := 86400 * lastSunMar y + 7200 - 3600

/-- UTC instant (seconds) at which DST ends in year `y`:
03:00 local daylight time on the last Sunday of October, i.e. 01:00 UTC. -/
def changeEnd (y : ℤ) : ℤ := 86400 * lastSunOct y + 10800 - 7200

/-! ## `struct tm`, `mktime`, `localtime` (newlib semantics) -/

/-- The fields of a C `struct tm` that the program reads or writes.  `year`
and `mon` are stored as the calendar year and 1-based month (the C code's
`tm_year = year - 1900` / `tm_mon = month - 1` biases cancel against the
biases applied when the fields are consumed, so the embedding keeps the
human-readable values).  `tm_wday`/`tm_yday` are never consumed by the
program and are omitted. -/
structure Tm where
  year : ℤ
  mon : ℤ
  mday : ℤ
  hour : ℤ
  min : ℤ
  sec : ℤ
  isdst : ℤ
deriving DecidableEq, Repr

/-- Seconds count of the wall-clock fields of a `tm`, as if they were UTC;
this is newlib `mktime`'s `tim` before the time-zone offset is applied. -/
def wallSecsOf (t : Tm) : ℤ :=
  86400 * daysFromCivil t.year t.mon t.mday + 3600 * t.hour + 60 * t.min + t.sec

/-- newlib `mktime` under the active zone: normalises the fields
(`validate_structure`), determines `tm_isdst` from the transition rules of
the fields' year treating the caller's `tm_isdst` as a hint that wins inside
the fall-back overlap and is corrected (by shifting `tim` one hour) outside
it, applies the selected rule offset, and stores the computed flag back into
the struct.  Returns `(time_t, updated struct)`. -/
def mktime (t : Tm) : ℤ × Tm :=
  let W := wallSecsOf t
  let Dn := W/ 86400
  let c := civilFromDays Dn
  let rem := W% 86400
  let Y := c.1
  let hintN := if 0 < t.isdst then 1 else t.isdst
  let startdstDst := changeStart Y + 7200
  let startstdDst := changeEnd Y + 7200
  let startstdStd := changeEnd Y + 3600
  let isdst :=
    if startstdStd ≤ W ∧ W < startstdDst then hintN
    else if startdstDst ≤ W ∧ W < startstdStd then 1 else 0
  let Wc :=
    if startstdStd ≤ W ∧ W < startstdDst then W
    else if isdst ≠ hintN ∧ 0 ≤ hintN then
      (if hintN = 0 then W + 3600 else W - 3600)
    else W
  let tt := Wc + (if isdst = 1 then -7200 else -3600)
  (tt, ⟨Y, c.2.1, c.2.2, rem/ 3600, (rem% 3600)/ 60, rem% 60, isdst⟩)

/-- Daylight flag newlib `localtime` assigns to a UTC instant: whether it
lies in `[changeStart, changeEnd)` of the instant's UTC year. -/
def isdstUtc (u : ℤ) : Prop :=
  changeStart ((civilFromDays (u / 86400)).1) ≤ u ∧ u < changeEnd ((civilFromDays (u / 86400)).1)

instance (u : ℤ) : Decidable (isdstUtc u) := by unfold isdstUtc; infer_instance

/-- newlib `localtime` under the active zone: picks the rule offset from the
daylight flag of the UTC instant and rebuilds the civil fields from the
shifted seconds count (CET = UTC+1, CEST = UTC+2). -/
def localtime (u : ℤ) : Tm :=
  let off : ℤ := if isdstUtc u then 7200 else 3600
  let ls := u + off
  let c := civilFromDays (ls/ 86400)
  let rem := ls% 86400
  ⟨c.1, c.2.1, c.2.2, rem/ 3600, (rem% 3600)/ 60, rem% 60,
    if isdstUtc u then 1 else 0⟩

/-- `getCustomTime` (src/main.cpp lines 139-159): builds a zeroed `tm` for
the requested local time with no DST flag asserted, converts with `mktime`,
converts the wall time one hour earlier, re-derives the local representation
of the first instant with `localtime`, and applies the fall-back policy: if
the hour-earlier instant is daylight while the resolved one is standard the
call fails (ambiguous); if both are daylight the resolved hour is moved back
by one.  Returns the C function's `bool` and the struct left in `*timePtr`. -/
def getCustomTime (year month day hour minute second : ℤ) : Bool × Tm :=
  let t0 : Tm := ⟨year, month, day, hour, minute, second, 0⟩
  let r1 := mktime t0
  let t := r1.1
  let F1 := r1.2
  let r2 := mktime ⟨F1.year, F1.mon, F1.mday, F1.hour - 1, F1.min, F1.sec, F1.isdst⟩
  let t1 := r2.1
  let L := localtime t
  if (localtime t1).isdst = 1 then
    if L.isdst = 0 then (false, L)
    else (true, ⟨L.year, L.mon, L.mday, L.hour - 1, L.min, L.sec, L.isdst⟩)
  else (true, L)

/-! ## URL construction in `getTempoDayColor` (lines 177-186)

The code copies `TEMPO_URL` into a buffer and patches the two 25-character
`YYYY-MM-DDThh:mm:sszzzzzz` placeholder slots (buffer offsets 112-136 and
147-171).  `strftime(url+112, 23, "%FT%T%z", &tm)` always wants to produce
24 characters (`2024-02-12T00:00:00+0100`), which exceeds the 23-byte limit,
so newlib writes the 22 characters that fit (`...+01`) and stops; the
subsequent `strcpy(url+134, ":00")` / `strcpy(url+169, ":00")` complete the
offsets to `+01:00` / `+02:00` and `url[137] = '&'` restores the separator.
Every NUL terminator written along the way is overwritten, leaving the
172-character C string modelled here. -/

/-- `%02d`-style two-digit decimal rendering (fields are in range 0..99). -/
def pad2 (n : ℤ) : String := if n < 10 then "0" ++ toString n else toString n

/-- Four-digit year as printed by `%Y` (years in range 1000..9999). -/
def pad4 (n : ℤ) : String := toString n

/-- Offset suffix printed by newlib `strftime`'s `%z`: the rule offset
selected by `tm_isdst` (CEST `+0200` when 1, CET `+0100` otherwise). -/
def zOffset (t : Tm) : String := if t.isdst = 1 then "+0200" else "+0100"

/-- Full `"%FT%T%z"` rendering of a `tm` (24 characters). -/
def strftimeIso (t : Tm) : String :=
  pad4 t.year ++ "-" ++ pad2 t.mon ++ "-" ++ pad2 t.mday ++ "T" ++
    pad2 t.hour ++ ":" ++ pad2 t.min ++ ":" ++ pad2 t.sec ++ zOffset t

/-- Overwrite the characters of `l` starting at position `i` with `r`. -/
def spliceAt (l : List Char) (i : ℕ) (r : List Char) : List Char :=
  l.take i ++ r ++ l.drop (i + r.length)

def TEMPO_URL : String :=
  "https://digital.iservices.rte-france.com/open_api/tempo_like_supply_contract/v1/tempo_like_calendars?start_date=YYYY-MM-DDThh:mm:sszzzzzz&end_date=YYYY-MM-DDThh:mm:sszzzzzz"

def TOKEN_URL : String := "https://digital.iservices.rte-france.com/token/oauth/"

def UNDEFINED : String := "UNDEFINED"

def WIFI_SSID : String := "......"
def WIFI_PASSWORD : String := "......"
def WIFI_TIMEOUT : ℤ := 20
def TIME_ZONE : String := "CET-1CEST,M3.5.0,M10.5.0/3"
def BASIC_AUTH : String := "Basic YjY5N2VmMzktNDczYS00NTY5LTk2OGMtNjRmNTU0ZGZlMDgzOjU2MDA0NjQ5LWU4MTEtNDZiZS05NGMyLTVmMGQ5YjhlYjM2Nw=="

/-- The URL byte surgery of lines 180-186: template copy, two truncated
`strftime` writes, two `":00"` patches, and the `'&'` restoration. -/
def buildTempoUrl (start finish : Tm) : String :=
  let u0 := TEMPO_URL.data
  let u1 := spliceAt u0 112 ((strftimeIso start).data.take 22)
  let u2 := spliceAt u1 147 ((strftimeIso finish).data.take 22)
  let u3 := spliceAt u2 134 ":00".data
  let u4 := spliceAt u3 169 ":00".data
  let u5 := spliceAt u4 137 ['&']
  String.mk u5

/-- The query URL `getTempoDayColor year month day` sends (lines 178-186):
window start at `00:00:00` of the requested day, window end at `00:00:00`
of `day + 1`, both resolved by `getCustomTime` (the returned `bool`s are
discarded by the code). -/
def getTempoUrl (year month day : ℤ) : String :=
  buildTempoUrl (getCustomTime year month day 0 0 0).2
    (getCustomTime year month (day + 1) 0 0 0).2

/-! ## JSON documents and HTTP responses -/

/-- A decoded ArduinoJson document. -/
inductive Json where
  | null
  | str (s : String)
  | num (n : ℤ)
  | bool (b : Bool)
  | arr (xs : List Json)
  | obj (fields : List (String × Json))

/-- ArduinoJson `doc[key]`: member lookup, `null` on a non-object or a
missing key. -/
def Json.member : Json → String → Json
  | .obj fs, k => ((fs.lookup k).getD .null)
  | _, _ => .null

/-- ArduinoJson `doc[i]`: array element, `null` on a non-array or
out-of-range index. -/
def Json.index : Json → ℕ → Json
  | .arr xs, i => (xs.get? i).getD .null
  | _, _ => .null

/-- ArduinoJson `v.as<const char*>()`: `some` only for a string value. -/
def Json.asStr : Json → Option String
  | .str s => some s
  | _ => none

/-- What the program observes of one HTTP exchange: the value returned by
`HTTPClient::GET()` (the status code, or a negative `HTTPC_ERROR_...` such
as -11 on a read timeout), and `some` decoded document when
`deserializeJson` succeeds on the body, `none` on a JSON decode error. -/
structure Response where
  code : ℤ
  body : Option Json

/-- An HTTP request as issued by `getJsonDocumentFromHTTPRequest`
(lines 161-173): the URL and the optional `Authorization` header value
(the header is added only when `auth != NULL`). -/
structure Request where
  url : String
  auth : Option String
deriving DecidableEq, Repr

/-- `getJsonDocumentFromHTTPRequest` (lines 161-173) success flag: `GET()`
returned 200 and the body deserialised. -/
def getJsonDocumentFromHTTPRequest (r : Response) : Bool :=
  decide (r.code = 200) && r.body.isSome

/-- Colour extraction of line 192:
`doc["tempo_like_calendars"]["values"][0]["value"] | UNDEFINED`. -/
def extractColor (doc : Json) : String :=
  ((((doc.member "tempo_like_calendars").member "values").index 0).member
    "value").asStr.getD UNDEFINED

/-- Response processing of `getTempoDayColor` (lines 190-194): the colour
on success, the `UNDEFINED` sentinel whenever
`getJsonDocumentFromHTTPRequest` fails. -/
def getTempoDayColor (year month day : ℤ) (r : Response) : String :=
  if getJsonDocumentFromHTTPRequest r then extractColor (r.body.getD .null)
  else UNDEFINED

/-- The `Authorization` value `setup` builds at lines 218-220:
`"Bearer "` followed by the raw token characters. -/
def bearerOf (token : String) : String := "Bearer " ++ token

/-- The request `getTempoDayColor year month day` issues. -/
def tempoRequest (year month day : ℤ) (auth : Option String) : Request :=
  ⟨getTempoUrl year month day, auth⟩

/-- `getTempoDayColor` against an abstract network (a function from request
to response): build the URL, issue the single GET, process the response. -/
def getTempoDayColorRun (year month day : ℤ) (auth : Option String)
    (net : Request → Response) : String :=
  getTempoDayColor year month day (net (tempoRequest year month day auth))

/-- The pipeline of `getTempoDayColorRun` with the two `bool` results of
`getCustomTime` (line 178/179) replaced by arbitrary values `b1`, `b2`:
used to state that the code discards them. -/
def getTempoDayColorFlagged (b1 b2 : Bool) (year month day : ℤ)
    (auth : Option String) (net : Request → Response) : String :=
  let r1 := (b1, (getCustomTime year month day 0 0 0).2)
  let r2 := (b2, (getCustomTime year month (day + 1) 0 0 0).2)
  getTempoDayColor year month day (net ⟨buildTempoUrl r1.2 r2.2, auth⟩)

/-- Older variant `getTempoDayColor` (second file part, lines 402-450):
returns the `okColor` flag and `some` written colour (`none` when
`*colorPtr` is left untouched).  Status 200 with a decoded body extracts
`doc["tempo_like_calendars"]["values"][0]["value"]` with no default (a
missing field becomes the empty Arduino `String`); status 400 writes the
`"UNDEFINED"` sentinel and reports success; everything else reports
failure. -/
def getTempoDayColorV1 (r : Response) : Bool × Option String :=
  if r.code = 200 then
    match r.body with
    | some doc =>
      (true, some (((((doc.member "tempo_like_calendars").member
        "values").index 0).member "value").asStr.getD ""))
    | none => (false, none)
  else if r.code = 400 then (true, some UNDEFINED)
  else (false, none)

/-! ## Wi-Fi supervisor and `setup` as action traces -/

/-- Externally observable steps of the supervisor and of `setup`. -/
inductive Action where
  | serialBegin
  | onEventRegister
  | wdtInit (timeoutS : ℤ)
  | wdtAdd
  | staMode
  | wifiBegin (ssid pwd : String)
  | waitWifiConnected
  | wdtDelete
  | httpGet (url : String) (auth : Option String)
  | printToken
  | setTZ (tz : String)
  | tempoQuery (year month day : ℤ)
  | initRTCSync
  | printTokenError
  | deepSleep
deriving DecidableEq, Repr

/-- `initWiFi` (lines 93-104): arm the watchdog for `timeOut` seconds, set
station mode, start the association, block until connected, disarm. -/
def initWiFi (ssid pwd : String) (timeOut : ℤ) : List Action :=
  [.wdtInit timeOut, .wdtAdd, .staMode, .wifiBegin ssid pwd,
   .waitWifiConnected, .wdtDelete]

/-- `WiFiDisconnected` (lines 106-115): on any disconnect reason other than
8 (`WiFi.disconnect()` requested by this supervisor) re-invoke `initWiFi`
with the configured credentials; on reason 8 do nothing. -/
def WiFiDisconnected (reason : ℤ) : List Action :=
  if reason ≠ 8 then initWiFi WIFI_SSID WIFI_PASSWORD WIFI_TIMEOUT else []

/-- Whether an action is the issuance of a day-colour query. -/
def Action.isTempoQuery : Action → Bool
  | .tempoQuery _ _ _ => true
  | _ => false

/-- `setup` (lines 201-245) as a trace, parameterised by the token-endpoint
response and the current local date read back after `initRTC`.  On token
failure the program prints an error and enters deep sleep (terminal); on
success it queries the three fixed dates and the current date twice. -/
def setupTrace (tokenResp : Response) (today : ℤ × ℤ × ℤ) : List Action :=
  [.serialBegin, .onEventRegister] ++ initWiFi WIFI_SSID WIFI_PASSWORD WIFI_TIMEOUT
  ++ [.httpGet TOKEN_URL (some BASIC_AUTH)]
  ++ (if getJsonDocumentFromHTTPRequest tokenResp then
        [.printToken, .setTZ TIME_ZONE,
         .tempoQuery 2024 2 11, .tempoQuery 2024 2 12, .tempoQuery 2024 2 13,
         .initRTCSync,
         .tempoQuery today.1 today.2.1 today.2.2,
         .tempoQuery today.1 today.2.1 (today.2.2 + 2)]
      else [.printTokenError, .deepSleep])

/-! ## Calendar structure lemmas

The two civil-calendar conversions are mutually inverse on the
device-representable era, and the within-year layout facts needed to trace
the resolver symbolically.  The era spans day numbers 366..24887
(1971-01-01 .. 2038-02-22, inside the 32-bit `time_t` horizon), for which
the Gregorian-era quotient of `civilFromDays` is 4 or 5. -/

/-- Number of days of month `m` of year `y` (Gregorian). -/
def monthLength (y m : ℤ) : ℤ :=
  if m = 2 then (if (y % 4 = 0 ∧ y % 100 ≠ 0) ∨ y % 400 = 0 then 29 else 28)
  else if m = 4 ∨ m = 6 ∨ m = 9 ∨ m = 11 then 30 else 31

/-- Year-of-era selection bounds for the low window of the era
(days-of-era 0..13870, i.e. 2000-03-01 .. 2038-02-22): the selected year
`b` is in range, the day-of-year `a - (365 b + c)` (where `c = b / 4`) is
in `[0, 365]`, and day-of-year 365 (a February 29) forces `b ≡ 3 (mod 4)`,
i.e. a leap year. -/
theorem helper5 (a b c e : ℤ)
    (ha : 0 ≤ a ∧ a ≤ 13870)
    (hb : 0 ≤ a - e - 365*b ∧ a - e - 365*b ≤ 364)
    (hc : 0 ≤ b - 4*c ∧ b - 4*c ≤ 3)
    (he : 0 ≤ a - 1460*e ∧ a - 1460*e ≤ 1459) :
    0 ≤ b ∧ b ≤ 37 ∧ 0 ≤ a - (365*b + c) ∧ a - (365*b + c) ≤ 365 ∧
      (a - (365*b + c) = 365 → b - 4*c = 3) := by
  have he0 : 0 ≤ e := by omega
  have hb0 : 0 ≤ b := by omega
  have hb37 : b ≤ 37 := by omega
  have hc0 : 0 ≤ c := by omega
  refine ⟨hb0, hb37, ?_, ?_, ?_⟩
  · by_contra hneg
    push_neg at hneg
    have h1 : e ≤ c - 1 := by omega
    have h2 : a ≤ 1460*c - 1 := by omega
    have h3 : 1460*c + e ≤ a := by linarith [hc.1, hb.1, he0]
    omega
  · have h4 : e ≤ c + 1 := by
      by_contra h
      push_neg at h
      have h5 : 1460*(c + 2) ≤ a := by omega
      have h7 : 365*b ≤ 1460*c + 1095 := by linarith [hc.2]
      omega
    omega
  · intro h365
    by_contra hr
    have hr2 : b - 4*c ≤ 2 := by omega
    have h8 : e ≤ c := by
      by_contra h
      push_neg at h
      have h9 : 1460*(c+1) ≤ a := by omega
      have h10 : 365*b ≥ a - e - 364 := by omega
      omega
    omega

/-- Year-of-era selection bounds for the high window of the era
(days-of-era 135446..146096, i.e. 1971-01-01 .. 2000-02-29); here the
century/era correction terms of the numerator contribute `+3`. -/
theorem helper4 (a b c e : ℤ)
    (ha : 135446 ≤ a ∧ a ≤ 146096)
    (hb : 0 ≤ a - e + 3 - 365*b ∧ a - e + 3 - 365*b ≤ 364)
    (hc : 0 ≤ b - 4*c ∧ b - 4*c ≤ 3)
    (he : 0 ≤ a - 1460*e ∧ a - 1460*e ≤ 1459) :
    370 ≤ b ∧ b ≤ 399 ∧ 0 ≤ a - (365*b + c - 3) ∧ a - (365*b + c - 3) ≤ 365 ∧
      (a - (365*b + c - 3) = 365 → b - 4*c = 3) := by
  have he92 : 92 ≤ e ∧ e ≤ 100 := by omega
  have hc0 : 92 ≤ c := by omega
  refine ⟨by omega, by omega, ?_, ?_, ?_⟩
  · by_contra hneg
    push_neg at hneg
    have h1 : e ≤ c - 1 := by omega
    have h2 : a ≤ 1460*c - 1 := by omega
    have h3 : 1460*c + e - 3 ≤ a := by linarith [hc.1, hb.1]
    omega
  · have h4 : e ≤ c + 1 := by
      by_contra h
      push_neg at h
      have h5 : 1460*(c + 2) ≤ a := by omega
      have h7 : 365*b ≤ 1460*c + 1095 := by linarith [hc.2]
      omega
    omega
  · intro h365
    by_contra hr
    have hr2 : b - 4*c ≤ 2 := by omega
    have h8 : e ≤ c := by
      by_contra h
      push_neg at h
      have h9 : 1460*(c+1) ≤ a := by omega
      have h10 : 365*b ≤ 1460*c + 730 := by linarith [hc.2]
      omega
    omega

/-- `daysFromCivil` is linear in the day argument. -/
theorem days_lin (y m d : ℤ) : daysFromCivil y m d = daysFromCivil y m 1 + d - 1 := by
  unfold daysFromCivil
  dsimp only
  split_ifs <;> ring

set_option maxHeartbeats 4000000 in
/-- The main decomposition facts for a day number in the representable
era: the civil date round-trips through `daysFromCivil`, its fields are a
valid Gregorian date, the year is in range, and the day number lies in the
half-open interval of day numbers of its year. -/
theorem civil_decomp (D : ℤ) (hD1 : 366 ≤ D) (hD2 : D ≤ 24887) :
    daysFromCivil (civilFromDays D).1 (civilFromDays D).2.1 (civilFromDays D).2.2 = D ∧
    1 ≤ (civilFromDays D).2.1 ∧ (civilFromDays D).2.1 ≤ 12 ∧
    1 ≤ (civilFromDays D).2.2 ∧
    (civilFromDays D).2.2 ≤ monthLength (civilFromDays D).1 (civilFromDays D).2.1 ∧
    1971 ≤ (civilFromDays D).1 ∧ (civilFromDays D).1 ≤ 2038 ∧
    daysFromCivil (civilFromDays D).1 1 1 ≤ D ∧
    D < daysFromCivil ((civilFromDays D).1 + 1) 1 1 := by
  dsimp only [civilFromDays, daysFromCivil, monthLength]
  generalize h1 : (D + 719468) / 146097 = era
  generalize h2 : D + 719468 - era * 146097 = doe
  generalize h3 : (doe - doe / 1460 + doe / 36524 - doe / 146096) / 365 = yoe
  generalize h4 : doe - (365 * yoe + yoe / 4 - yoe / 100) = doy
  generalize h5 : (5 * doy + 2) / 153 = mp
  generalize h6 : (153 * mp + 2) / 5 = q
  have hdoe : 0 ≤ doe ∧ doe ≤ 146096 := by omega
  have hera : era = 4 ∨ era = 5 := by omega
  have hmain :
      0 ≤ yoe ∧ yoe ≤ 399 ∧ 0 ≤ doy ∧ doy ≤ 365 ∧ (doy = 365 → yoe - 4*(yoe/4) = 3) ∧
      (era = 5 → yoe ≤ 37) ∧ (era = 4 → 370 ≤ yoe) := by
    rcases hera with h | h
    · have hw : 135446 ≤ doe ∧ doe ≤ 146096 := by omega
      have H := helper4 doe yoe (yoe / 4) (doe / 1460) hw (by omega) (by omega) (by omega)
      refine ⟨by omega, by omega, by omega, by omega, by omega, by omega, by omega⟩
    · have hw : 0 ≤ doe ∧ doe ≤ 13870 := by omega
      have H := helper5 doe yoe (yoe / 4) (doe / 1460) hw (by omega) (by omega) (by omega)
      refine ⟨by omega, by omega, by omega, by omega, by omega, by omega, by omega⟩
  obtain ⟨hy0, hy399, hdoy0, hdoy365, hfeb, hyera5, hyera4⟩ := hmain
  have hmp : 0 ≤ mp ∧ mp ≤ 11 ∧ 1 ≤ doy - q + 1 ∧ doy - q + 1 ≤ 31 := by omega
  obtain ⟨hmp0, hmp11, hd1, hd31⟩ := hmp
  refine ⟨?_, ?_, ?_, ?_, ?_, ?_, ?_, ?_, ?_⟩
  · by_cases h10 : mp < 10
    · have hm1 : ¬ (mp + 3 ≤ 2) := by omega
      have hm2 : 2 < mp + 3 := by omega
      simp only [if_pos h10, if_neg hm1, if_pos hm2]
      have e1 : yoe + era * 400 + 0 - 0 = 400 * era + yoe := by ring
      rw [e1]
      have e2 : (400 * era + yoe) / 400 = era := by omega
      rw [e2]
      have e3 : 400 * era + yoe - era * 400 = yoe := by ring
      rw [e3]
      have e4 : 153 * (mp + 3 + -3) + 2 = 153 * mp + 2 := by ring
      rw [e4]
      omega
    · have hm1 : mp + -9 ≤ 2 := by omega
      have hm2 : ¬ (2 < mp + -9) := by omega
      simp only [if_neg h10, if_pos hm1, if_neg hm2]
      have e1 : yoe + era * 400 + 1 - 1 = 400 * era + yoe := by ring
      rw [e1]
      have e2 : (400 * era + yoe) / 400 = era := by omega
      rw [e2]
      have e3 : 400 * era + yoe - era * 400 = yoe := by ring
      rw [e3]
      have e4 : 153 * (mp + -9 + 9) + 2 = 153 * mp + 2 := by ring
      rw [e4]
      omega
  · split_ifs <;> omega
  · split_ifs <;> omega
  · omega
  · clear h1 h2 h3 h4 hdoe hD1 hD2 hdoy0
    interval_cases mp <;> split_ifs <;> omega
  · split_ifs <;> omega
  · split_ifs <;> omega
  · -- start of the year is not after D
    by_cases h10 : mp < 10
    · have hm1 : ¬ (mp + 3 ≤ 2) := by omega
      simp only [if_pos h10, if_neg hm1]
      norm_num
      omega
    · have hm1 : mp + -9 ≤ 2 := by omega
      simp only [if_neg h10, if_pos hm1]
      norm_num
      have e2 : (yoe + era * 400) / 400 = era := by omega
      rw [e2]
      have e3 : yoe + era * 400 - era * 400 = yoe := by ring
      rw [e3]
      omega
  · -- D is before the start of the next year
    by_cases h10 : mp < 10
    · have hm1 : ¬ (mp + 3 ≤ 2) := by omega
      simp only [if_pos h10, if_neg hm1]
      norm_num
      have e2 : (yoe + era * 400) / 400 = era := by omega
      rw [e2]
      have e3 : yoe + era * 400 - era * 400 = yoe := by ring
      rw [e3]
      omega
    · have hm1 : mp + -9 ≤ 2 := by omega
      simp only [if_neg h10, if_pos hm1]
      norm_num
      omega

set_option maxHeartbeats 4000000 in
/-- Day-count spans within a year of the era: March 31 and October 31 sit
89/90 and 303/304 days after January 1, and the next January 1 is 365/366
days later (the slack being the leap day). -/
theorem yearSpans (Y : ℤ) (h1 : 1970 ≤ Y) (h2 : Y ≤ 2039) :
    (89 ≤ daysFromCivil Y 3 31 - daysFromCivil Y 1 1 ∧
      daysFromCivil Y 3 31 - daysFromCivil Y 1 1 ≤ 90) ∧
    (303 ≤ daysFromCivil Y 10 31 - daysFromCivil Y 1 1 ∧
      daysFromCivil Y 10 31 - daysFromCivil Y 1 1 ≤ 304) ∧
    (365 ≤ daysFromCivil (Y + 1) 1 1 - daysFromCivil Y 1 1 ∧
      daysFromCivil (Y + 1) 1 1 - daysFromCivil Y 1 1 ≤ 366) := by
  unfold daysFromCivil
  dsimp only
  norm_num
  omega

set_option maxHeartbeats 4000000 in
/-- Within-year layout of a year of the representable era: both DST
transition Sundays fall inside the year at their known offsets from
January 1, and the following January 1 is 365 or 366 days later. -/
theorem yearFacts (Y : ℤ) (h1 : 1970 ≤ Y) (h2 : Y ≤ 2039) :
    daysFromCivil Y 1 1 + 59 ≤ lastSunMar Y ∧
    lastSunMar Y ≤ daysFromCivil Y 1 1 + 90 ∧
    daysFromCivil Y 1 1 + 270 ≤ lastSunOct Y ∧
    lastSunOct Y ≤ daysFromCivil Y 1 1 + 304 ∧
    daysFromCivil Y 1 1 + 365 ≤ daysFromCivil (Y + 1) 1 1 ∧
    daysFromCivil (Y + 1) 1 1 ≤ daysFromCivil Y 1 1 + 366 := by
  have hs := yearSpans Y h1 h2
  have hd1 : 0 ≤ dow (daysFromCivil Y 3 31) ∧ dow (daysFromCivil Y 3 31) ≤ 6 := by
    unfold dow; omega
  have hd2 : 0 ≤ dow (daysFromCivil Y 10 31) ∧ dow (daysFromCivil Y 10 31) ≤ 6 := by
    unfold dow; omega
  unfold lastSunMar lastSunOct
  dsimp only
  omega

/-- January 1 day numbers are monotone over the era. -/
theorem J_mono (Y1 Y2 : ℤ) (h1 : 1970 ≤ Y1) (h2 : Y1 ≤ Y2) (h3 : Y2 ≤ 2040) :
    daysFromCivil Y1 1 1 ≤ daysFromCivil Y2 1 1 := by
  have H : ∀ n, Y1 ≤ n → n ≤ 2040 → daysFromCivil Y1 1 1 ≤ daysFromCivil n 1 1 :=
    Int.le_induction (fun _ => le_refl _)
      (fun n hn ih hle => by
        have h4 := ih (by omega)
        have h5 := yearFacts n (by omega) (by omega)
        omega)
  exact H Y2 h2 h3

/-- A day number lies in the January-1 interval of exactly one year. -/
theorem year_unique (X Ya Yb : ℤ)
    (hya : 1970 ≤ Ya ∧ Ya ≤ 2039) (hyb : 1970 ≤ Yb ∧ Yb ≤ 2039)
    (ha : daysFromCivil Ya 1 1 ≤ X ∧ X < daysFromCivil (Ya + 1) 1 1)
    (hb : daysFromCivil Yb 1 1 ≤ X ∧ X < daysFromCivil (Yb + 1) 1 1) : Ya = Yb := by
  rcases lt_trichotomy Ya Yb with h | h | h
  · have := J_mono (Ya + 1) Yb (by omega) (by omega) (by omega)
    omega
  · exact h
  · have := J_mono (Yb + 1) Ya (by omega) (by omega) (by omega)
    omega

/-- The civil year of the previous day number: either the same year, or
(exactly when `D` is a January 1) the year before. -/
theorem linkPrev (D : ℤ) (hD1 : 367 ≤ D) (hD2 : D ≤ 24887) :
    (civilFromDays (D - 1)).1 = (civilFromDays D).1 ∨
    ((civilFromDays (D - 1)).1 = (civilFromDays D).1 - 1 ∧
      D = daysFromCivil (civilFromDays D).1 1 1) := by
  obtain ⟨-, -, -, -, -, hY1, hY2, hJa, hJb⟩ := civil_decomp D (by omega) hD2
  obtain ⟨-, -, -, -, -, hpY1, hpY2, hpJa, hpJb⟩ := civil_decomp (D - 1) (by omega) (by omega)
  by_cases hJ : D = daysFromCivil (civilFromDays D).1 1 1
  · right
    have e1 : (civilFromDays D).1 - 1 + 1 = (civilFromDays D).1 := by ring
    have hspan := yearFacts ((civilFromDays D).1 - 1) (by omega) (by omega)
    rw [e1] at hspan
    exact ⟨year_unique (D - 1) (civilFromDays (D - 1)).1 ((civilFromDays D).1 - 1)
      ⟨by omega, by omega⟩ ⟨by omega, by omega⟩ ⟨hpJa, hpJb⟩
      ⟨by omega, by rw [e1]; omega⟩, hJ⟩
  · left
    exact year_unique (D - 1) (civilFromDays (D - 1)).1 (civilFromDays D).1
      ⟨by omega, by omega⟩ ⟨by omega, by omega⟩ ⟨hpJa, hpJb⟩ ⟨by omega, by omega⟩

/-! ## Symbolic trace of `getCustomTime` at local midnight

The following lemmas evaluate each `mktime`/`localtime` call of
`getCustomTime year month day 0 0 0` for a day number `D` of the era,
separately for days whose midnight is standard time (outside
`(lastSunMar, lastSunOct]`) and days whose midnight is daylight time. -/

theorem changeStart_eq (y : ℤ) : changeStart y = 86400 * lastSunMar y + 3600 := by
  unfold changeStart; ring

theorem changeEnd_eq (y : ℤ) : changeEnd y = 86400 * lastSunOct y + 3600 := by
  unfold changeEnd; ring

set_option maxHeartbeats 1000000 in
/-- First `mktime` call at a standard-time midnight: the naive fields with
no DST flag resolve to the instant `D·86400 − 3600` (midnight CET) and the
struct keeps `tm_isdst = 0`. -/
theorem mkMidnightStd (y m d D : ℤ) (hW : daysFromCivil y m d = D)
    (hD1 : 367 ≤ D) (hD2 : D ≤ 24800)
    (hstd : ¬(lastSunMar (civilFromDays D).1 < D ∧ D ≤ lastSunOct (civilFromDays D).1)) :
    mktime ⟨y, m, d, 0, 0, 0, 0⟩ =
      (86400 * D - 3600,
       ⟨(civilFromDays D).1, (civilFromDays D).2.1, (civilFromDays D).2.2, 0, 0, 0, 0⟩) := by
  obtain ⟨hrt, -, -, -, -, hY1, hY2, hJa, hJb⟩ := civil_decomp D (by omega) (by omega)
  have hyf := yearFacts (civilFromDays D).1 (by omega) (by omega)
  unfold mktime wallSecsOf
  dsimp only
  rw [hW, changeStart_eq, changeEnd_eq]
  have hh : ¬ ((0:ℤ) < 0) := by omega
  simp only [if_neg hh]
  have eW : 86400 * D + 3600 * 0 + 60 * 0 + 0 = 86400 * D := by ring
  rw [eW]
  have q1 : 86400 * D / 86400 = D := by omega
  have q2 : 86400 * D % 86400 = 0 := by omega
  rw [q1, q2]
  have hov : ¬(86400 * lastSunOct (civilFromDays D).1 + 3600 + 3600 ≤ 86400 * D ∧
      86400 * D < 86400 * lastSunOct (civilFromDays D).1 + 3600 + 7200) := by omega
  have hcm : ¬(86400 * lastSunMar (civilFromDays D).1 + 3600 + 7200 ≤ 86400 * D ∧
      86400 * D < 86400 * lastSunOct (civilFromDays D).1 + 3600 + 3600) := by omega
  simp only [if_neg hov, if_neg hcm]
  have hc2 : ¬((0:ℤ) ≠ 0 ∧ (0:ℤ) ≤ 0) := by omega
  simp only [if_neg hc2]
  have hc3 : ¬((0:ℤ) = 1) := by omega
  simp only [if_neg hc3]
  simp only [Prod.mk.injEq, Tm.mk.injEq]
  norm_num
  ring

set_option maxHeartbeats 1000000 in
/-- First `mktime` call at a daylight-time midnight: the standard-asserted
hint is corrected one hour forward, yielding the same instant
`D·86400 − 3600` (which is 01:00 CEST of day `D`), and the struct records
`tm_isdst = 1`. -/
theorem mkMidnightDst (y m d D : ℤ) (hW : daysFromCivil y m d = D)
    (hD1 : 367 ≤ D) (hD2 : D ≤ 24800)
    (hdst : lastSunMar (civilFromDays D).1 < D ∧ D ≤ lastSunOct (civilFromDays D).1) :
    mktime ⟨y, m, d, 0, 0, 0, 0⟩ =
      (86400 * D - 3600,
       ⟨(civilFromDays D).1, (civilFromDays D).2.1, (civilFromDays D).2.2, 0, 0, 0, 1⟩) := by
  obtain ⟨hrt, -, -, -, -, hY1, hY2, hJa, hJb⟩ := civil_decomp D (by omega) (by omega)
  have hyf := yearFacts (civilFromDays D).1 (by omega) (by omega)
  unfold mktime wallSecsOf
  dsimp only
  rw [hW, changeStart_eq, changeEnd_eq]
  have hh : ¬ ((0:ℤ) < 0) := by omega
  simp only [if_neg hh]
  have eW : 86400 * D + 3600 * 0 + 60 * 0 + 0 = 86400 * D := by ring
  rw [eW]
  have q1 : 86400 * D / 86400 = D := by omega
  have q2 : 86400 * D % 86400 = 0 := by omega
  rw [q1, q2]
  have hov : ¬(86400 * lastSunOct (civilFromDays D).1 + 3600 + 3600 ≤ 86400 * D ∧
      86400 * D < 86400 * lastSunOct (civilFromDays D).1 + 3600 + 7200) := by omega
  have hcm : 86400 * lastSunMar (civilFromDays D).1 + 3600 + 7200 ≤ 86400 * D ∧
      86400 * D < 86400 * lastSunOct (civilFromDays D).1 + 3600 + 3600 := by omega
  simp only [if_neg hov, if_pos hcm]
  have hc2 : (1:ℤ) ≠ 0 ∧ (0:ℤ) ≤ 0 := by omega
  simp only [if_pos hc2]
  simp only [Prod.mk.injEq, Tm.mk.injEq]
  norm_num
  ring

set_option maxHeartbeats 1000000 in
/-- Second `mktime` call (wall time one hour before midnight) in the
standard case: resolves to `D·86400 − 7200`. -/
theorem mkPrevStd (D : ℤ) (hD1 : 367 ≤ D) (hD2 : D ≤ 24800)
    (hstd : ¬(lastSunMar (civilFromDays D).1 < D ∧ D ≤ lastSunOct (civilFromDays D).1)) :
    (mktime ⟨(civilFromDays D).1, (civilFromDays D).2.1, (civilFromDays D).2.2,
      0 - 1, 0, 0, 0⟩).1 = 86400 * D - 7200 := by
  obtain ⟨hrt, -, -, -, -, hY1, hY2, hJa, hJb⟩ := civil_decomp D (by omega) (by omega)
  have hyf := yearFacts (civilFromDays D).1 (by omega) (by omega)
  have hlink := linkPrev D (by omega) (by omega)
  unfold mktime wallSecsOf
  dsimp only
  rw [hrt, changeStart_eq, changeEnd_eq]
  have hh : ¬ ((0:ℤ) < 0) := by omega
  simp only [if_neg hh]
  have eW : 86400 * D + 3600 * (0 - 1) + 60 * 0 + 0 = 86400 * D - 3600 := by ring
  rw [eW]
  have q1 : (86400 * D - 3600) / 86400 = D - 1 := by omega
  simp only [q1]
  rcases hlink with hsame | ⟨hprev, hJD⟩
  · simp only [hsame]
    have hov : ¬(86400 * lastSunOct (civilFromDays D).1 + 3600 + 3600 ≤ 86400 * D - 3600 ∧
        86400 * D - 3600 < 86400 * lastSunOct (civilFromDays D).1 + 3600 + 7200) := by omega
    have hcm : ¬(86400 * lastSunMar (civilFromDays D).1 + 3600 + 7200 ≤ 86400 * D - 3600 ∧
        86400 * D - 3600 < 86400 * lastSunOct (civilFromDays D).1 + 3600 + 3600) := by omega
    simp only [if_neg hov, if_neg hcm]
    have hc2 : ¬((0:ℤ) ≠ 0 ∧ (0:ℤ) ≤ 0) := by omega
    simp only [if_neg hc2]
    have hc3 : ¬((0:ℤ) = 1) := by omega
    simp only [if_neg hc3]
    ring
  · simp only [hprev]
    have hyp := yearFacts ((civilFromDays D).1 - 1) (by omega) (by omega)
    have e1 : (civilFromDays D).1 - 1 + 1 = (civilFromDays D).1 := by ring
    rw [e1] at hyp
    have hov : ¬(86400 * lastSunOct ((civilFromDays D).1 - 1) + 3600 + 3600 ≤ 86400 * D - 3600 ∧
        86400 * D - 3600 < 86400 * lastSunOct ((civilFromDays D).1 - 1) + 3600 + 7200) := by
      omega
    have hcm : ¬(86400 * lastSunMar ((civilFromDays D).1 - 1) + 3600 + 7200 ≤ 86400 * D - 3600 ∧
        86400 * D - 3600 < 86400 * lastSunOct ((civilFromDays D).1 - 1) + 3600 + 3600) := by
      omega
    simp only [if_neg hov, if_neg hcm]
    have hc2 : ¬((0:ℤ) ≠ 0 ∧ (0:ℤ) ≤ 0) := by omega
    simp only [if_neg hc2]
    have hc3 : ¬((0:ℤ) = 1) := by omega
    simp only [if_neg hc3]
    ring

set_option maxHeartbeats 1000000 in
/-- Second `mktime` call in the daylight case (hint `tm_isdst = 1` from the
first call): resolves to `D·86400 − 10800`. -/
theorem mkPrevDst (D : ℤ) (hD1 : 367 ≤ D) (hD2 : D ≤ 24800)
    (hdst : lastSunMar (civilFromDays D).1 < D ∧ D ≤ lastSunOct (civilFromDays D).1) :
    (mktime ⟨(civilFromDays D).1, (civilFromDays D).2.1, (civilFromDays D).2.2,
      0 - 1, 0, 0, 1⟩).1 = 86400 * D - 10800 := by
  obtain ⟨hrt, -, -, -, -, hY1, hY2, hJa, hJb⟩ := civil_decomp D (by omega) (by omega)
  have hyf := yearFacts (civilFromDays D).1 (by omega) (by omega)
  have hlink := linkPrev D (by omega) (by omega)
  unfold mktime wallSecsOf
  dsimp only
  rw [hrt, changeStart_eq, changeEnd_eq]
  have hh : (0:ℤ) < 1 := by omega
  simp only [if_pos hh]
  have eW : 86400 * D + 3600 * (0 - 1) + 60 * 0 + 0 = 86400 * D - 3600 := by ring
  rw [eW]
  have q1 : (86400 * D - 3600) / 86400 = D - 1 := by omega
  simp only [q1]
  rcases hlink with hsame | ⟨hprev, hJD⟩
  · simp only [hsame]
    have hov : ¬(86400 * lastSunOct (civilFromDays D).1 + 3600 + 3600 ≤ 86400 * D - 3600 ∧
        86400 * D - 3600 < 86400 * lastSunOct (civilFromDays D).1 + 3600 + 7200) := by omega
    have hcm : 86400 * lastSunMar (civilFromDays D).1 + 3600 + 7200 ≤ 86400 * D - 3600 ∧
        86400 * D - 3600 < 86400 * lastSunOct (civilFromDays D).1 + 3600 + 3600 := by omega
    simp only [if_neg hov, if_pos hcm]
    have hc2 : ¬((1:ℤ) ≠ 1 ∧ (0:ℤ) ≤ 1) := by omega
    simp only [if_neg hc2, if_true]
    ring
  · exfalso
    omega

set_option maxHeartbeats 1000000 in
/-- `localtime` of the resolved instant in the standard case: local
midnight of day `D`, standard time. -/
theorem ltStd (D : ℤ) (hD1 : 367 ≤ D) (hD2 : D ≤ 24800)
    (hstd : ¬(lastSunMar (civilFromDays D).1 < D ∧ D ≤ lastSunOct (civilFromDays D).1)) :
    localtime (86400 * D - 3600) =
      ⟨(civilFromDays D).1, (civilFromDays D).2.1, (civilFromDays D).2.2, 0, 0, 0, 0⟩ := by
  obtain ⟨hrt, -, -, -, -, hY1, hY2, hJa, hJb⟩ := civil_decomp D (by omega) (by omega)
  have hyf := yearFacts (civilFromDays D).1 (by omega) (by omega)
  have hlink := linkPrev D (by omega) (by omega)
  unfold localtime isdstUtc
  dsimp only
  have q1 : (86400 * D - 3600) / 86400 = D - 1 := by omega
  simp only [q1, changeStart_eq, changeEnd_eq]
  have hcond : ¬(86400 * lastSunMar ((civilFromDays (D - 1)).1) + 3600 ≤ 86400 * D - 3600 ∧
      86400 * D - 3600 < 86400 * lastSunOct ((civilFromDays (D - 1)).1) + 3600) := by
    rcases hlink with hsame | ⟨hprev, hJD⟩
    · rw [hsame]
      omega
    · rw [hprev]
      have hyp := yearFacts ((civilFromDays D).1 - 1) (by omega) (by omega)
      have e1 : (civilFromDays D).1 - 1 + 1 = (civilFromDays D).1 := by ring
      rw [e1] at hyp
      omega
  simp only [if_neg hcond]
  have eL : 86400 * D - 3600 + 3600 = 86400 * D := by ring
  simp only [eL]
  have q2 : 86400 * D / 86400 = D := by omega
  have q3 : 86400 * D % 86400 = 0 := by omega
  simp only [q2, q3]
  simp only [Tm.mk.injEq]
  norm_num

set_option maxHeartbeats 1000000 in
/-- `localtime` of the resolved instant in the daylight case: 01:00 local
daylight time of day `D`. -/
theorem ltDst (D : ℤ) (hD1 : 367 ≤ D) (hD2 : D ≤ 24800)
    (hdst : lastSunMar (civilFromDays D).1 < D ∧ D ≤ lastSunOct (civilFromDays D).1) :
    localtime (86400 * D - 3600) =
      ⟨(civilFromDays D).1, (civilFromDays D).2.1, (civilFromDays D).2.2, 1, 0, 0, 1⟩ := by
  obtain ⟨hrt, -, -, -, -, hY1, hY2, hJa, hJb⟩ := civil_decomp D (by omega) (by omega)
  have hyf := yearFacts (civilFromDays D).1 (by omega) (by omega)
  have hlink := linkPrev D (by omega) (by omega)
  unfold localtime isdstUtc
  dsimp only
  have q1 : (86400 * D - 3600) / 86400 = D - 1 := by omega
  simp only [q1, changeStart_eq, changeEnd_eq]
  have hsame : (civilFromDays (D - 1)).1 = (civilFromDays D).1 := by
    rcases hlink with hsame | ⟨hprev, hJD⟩
    · exact hsame
    · exfalso; omega
  simp only [hsame]
  have hcond : 86400 * lastSunMar ((civilFromDays D).1) + 3600 ≤ 86400 * D - 3600 ∧
      86400 * D - 3600 < 86400 * lastSunOct ((civilFromDays D).1) + 3600 := by omega
  simp only [if_pos hcond]
  have eL : 86400 * D - 3600 + 7200 = 86400 * D + 3600 := by ring
  simp only [eL]
  have q2 : (86400 * D + 3600) / 86400 = D := by omega
  have q3 : (86400 * D + 3600) % 86400 = 3600 := by omega
  simp only [q2, q3]
  simp only [Tm.mk.injEq]
  norm_num

set_option maxHeartbeats 1000000 in
/-- The hour-earlier instant carries no daylight flag in the standard
case. -/
theorem ltT1Std (D : ℤ) (hD1 : 367 ≤ D) (hD2 : D ≤ 24800)
    (hstd : ¬(lastSunMar (civilFromDays D).1 < D ∧ D ≤ lastSunOct (civilFromDays D).1)) :
    (localtime (86400 * D - 7200)).isdst = 0 := by
  obtain ⟨hrt, -, -, -, -, hY1, hY2, hJa, hJb⟩ := civil_decomp D (by omega) (by omega)
  have hyf := yearFacts (civilFromDays D).1 (by omega) (by omega)
  have hlink := linkPrev D (by omega) (by omega)
  unfold localtime isdstUtc
  dsimp only
  have q1 : (86400 * D - 7200) / 86400 = D - 1 := by omega
  simp only [q1, changeStart_eq, changeEnd_eq]
  have hcond : ¬(86400 * lastSunMar ((civilFromDays (D - 1)).1) + 3600 ≤ 86400 * D - 7200 ∧
      86400 * D - 7200 < 86400 * lastSunOct ((civilFromDays (D - 1)).1) + 3600) := by
    rcases hlink with hsame | ⟨hprev, hJD⟩
    · rw [hsame]
      omega
    · rw [hprev]
      have hyp := yearFacts ((civilFromDays D).1 - 1) (by omega) (by omega)
      have e1 : (civilFromDays D).1 - 1 + 1 = (civilFromDays D).1 := by ring
      rw [e1] at hyp
      omega
  simp only [if_neg hcond]

set_option maxHeartbeats 1000000 in
/-- The hour-earlier instant carries the daylight flag in the daylight
case. -/
theorem ltT1Dst (D : ℤ) (hD1 : 367 ≤ D) (hD2 : D ≤ 24800)
    (hdst : lastSunMar (civilFromDays D).1 < D ∧ D ≤ lastSunOct (civilFromDays D).1) :
    (localtime (86400 * D - 10800)).isdst = 1 := by
  obtain ⟨hrt, -, -, -, -, hY1, hY2, hJa, hJb⟩ := civil_decomp D (by omega) (by omega)
  have hyf := yearFacts (civilFromDays D).1 (by omega) (by omega)
  have hlink := linkPrev D (by omega) (by omega)
  unfold localtime isdstUtc
  dsimp only
  have q1 : (86400 * D - 10800) / 86400 = D - 1 := by omega
  simp only [q1, changeStart_eq, changeEnd_eq]
  have hsame : (civilFromDays (D - 1)).1 = (civilFromDays D).1 := by
    rcases hlink with hsame | ⟨hprev, hJD⟩
    · exact hsame
    · exfalso; omega
  simp only [hsame]
  have hcond : 86400 * lastSunMar ((civilFromDays D).1) + 3600 ≤ 86400 * D - 10800 ∧
      86400 * D - 10800 < 86400 * lastSunOct ((civilFromDays D).1) + 3600 := by omega
  simp only [if_pos hcond]

set_option maxHeartbeats 1000000 in
/-- Resolution of local midnight of any day of the era: `getCustomTime`
succeeds and leaves exactly `00:00:00` of the requested (normalised) civil
date, daylight-flagged precisely on the days strictly after the March
transition Sunday up to and including the October transition Sunday. -/
theorem midnight_master (y m d D : ℤ) (hW : daysFromCivil y m d = D)
    (hD1 : 367 ≤ D) (hD2 : D ≤ 24800) :
    getCustomTime y m d 0 0 0 =
      (true, ⟨(civilFromDays D).1, (civilFromDays D).2.1, (civilFromDays D).2.2, 0, 0, 0,
        if lastSunMar (civilFromDays D).1 < D ∧ D ≤ lastSunOct (civilFromDays D).1
        then 1 else 0⟩) := by
  by_cases hf : lastSunMar (civilFromDays D).1 < D ∧ D ≤ lastSunOct (civilFromDays D).1
  · unfold getCustomTime
    dsimp only
    rw [mkMidnightDst y m d D hW hD1 hD2 hf]
    dsimp only
    rw [mkPrevDst D hD1 hD2 hf]
    rw [ltT1Dst D hD1 hD2 hf]
    rw [ltDst D hD1 hD2 hf]
    dsimp only
    have h1 : (1:ℤ) = 1 := rfl
    simp only [if_pos h1, if_pos hf]
    have h2 : ¬((1:ℤ) = 0) := by omega
    simp only [if_neg h2]
    norm_num
  · unfold getCustomTime
    dsimp only
    rw [mkMidnightStd y m d D hW hD1 hD2 hf]
    dsimp only
    rw [mkPrevStd D hD1 hD2 hf]
    rw [ltT1Std D hD1 hD2 hf]
    rw [ltStd D hD1 hD2 hf]
    have h2 : ¬((0:ℤ) = 1) := by omega
    simp only [if_neg h2, if_neg hf]

set_option maxHeartbeats 1000000 in
theorem monthStep (y m : ℤ) (h1 : 1 ≤ m) (h2 : m ≤ 11) :
    daysFromCivil y (m + 1) 1 = daysFromCivil y m 1 + monthLength y m := by
  interval_cases m <;>
    (unfold daysFromCivil monthLength; norm_num) <;> (try split_ifs) <;> omega

set_option maxHeartbeats 1000000 in
theorem yearStep (y : ℤ) :
    daysFromCivil (y + 1) 1 1 = daysFromCivil y 12 1 + 31 := by
  unfold daysFromCivil
  norm_num
  omega

theorem Jval : daysFromCivil 1972 1 1 = 730 ∧ daysFromCivil 2037 1 1 = 24472 := by
  constructor <;> decide

set_option maxHeartbeats 4000000 in
theorem civil_first (Y M : ℤ) (hY1 : 1972 ≤ Y) (hY2 : Y ≤ 2036)
    (hM1 : 1 ≤ M) (hM2 : M ≤ 12) :
    civilFromDays (daysFromCivil Y M 1) = (Y, M, 1) := by
  have s1 := monthStep Y 1 (by omega) (by omega)
  have s2 := monthStep Y 2 (by omega) (by omega)
  have s3 := monthStep Y 3 (by omega) (by omega)
  have s4 := monthStep Y 4 (by omega) (by omega)
  have s5 := monthStep Y 5 (by omega) (by omega)
  have s6 := monthStep Y 6 (by omega) (by omega)
  have s7 := monthStep Y 7 (by omega) (by omega)
  have s8 := monthStep Y 8 (by omega) (by omega)
  have s9 := monthStep Y 9 (by omega) (by omega)
  have s10 := monthStep Y 10 (by omega) (by omega)
  have s11 := monthStep Y 11 (by omega) (by omega)
  have sy := yearStep Y
  norm_num at s1 s2 s3 s4 s5 s6 s7 s8 s9 s10 s11
  have ml1 : monthLength Y 1 = 31 := by unfold monthLength; norm_num
  have ml2 : monthLength Y 2 = 28 ∨ monthLength Y 2 = 29 := by
    unfold monthLength; split_ifs <;> omega
  have ml3 : monthLength Y 3 = 31 := by unfold monthLength; norm_num
  have ml4 : monthLength Y 4 = 30 := by unfold monthLength; norm_num
  have ml5 : monthLength Y 5 = 31 := by unfold monthLength; norm_num
  have ml6 : monthLength Y 6 = 30 := by unfold monthLength; norm_num
  have ml7 : monthLength Y 7 = 31 := by unfold monthLength; norm_num
  have ml8 : monthLength Y 8 = 31 := by unfold monthLength; norm_num
  have ml9 : monthLength Y 9 = 30 := by unfold monthLength; norm_num
  have ml10 : monthLength Y 10 = 31 := by unfold monthLength; norm_num
  have ml11 : monthLength Y 11 = 30 := by unfold monthLength; norm_num
  have ml12 : monthLength Y 12 = 31 := by unfold monthLength; norm_num
  have hJlo := J_mono 1972 Y (by norm_num) (by omega) (by omega)
  have hJhi := J_mono (Y + 1) 2037 (by omega) (by omega) (by norm_num)
  have hJv := Jval
  have hXw : daysFromCivil Y 1 1 ≤ daysFromCivil Y M 1 ∧
      daysFromCivil Y M 1 < daysFromCivil (Y + 1) 1 1 := by
    interval_cases M <;> omega
  obtain ⟨hrt, hm1, hm12, hd1c, hdm, hYc1, hYc2, hJa, hJb⟩ :=
    civil_decomp (daysFromCivil Y M 1) (by omega) (by omega)
  have hYeq : (civilFromDays (daysFromCivil Y M 1)).1 = Y :=
    year_unique (daysFromCivil Y M 1) (civilFromDays (daysFromCivil Y M 1)).1 Y
      ⟨by omega, by omega⟩ ⟨by omega, by omega⟩ ⟨hJa, hJb⟩ hXw
  obtain ⟨Mc, Dc, hMc, hDc⟩ :
      ∃ Mc Dc, (civilFromDays (daysFromCivil Y M 1)).2.1 = Mc ∧
        (civilFromDays (daysFromCivil Y M 1)).2.2 = Dc := ⟨_, _, rfl, rfl⟩
  rw [hYeq, hMc, hDc] at hrt
  rw [hMc] at hm1 hm12
  rw [hDc] at hd1c
  rw [hYeq, hMc, hDc] at hdm
  have hlin := days_lin Y Mc Dc
  have hfin : Mc = M ∧ Dc = 1 := by
    rw [hlin] at hrt
    clear hlin hJa hJb hJlo hJhi hJv hXw hYeq hMc hDc hYc1 hYc2 hY1 hY2
    interval_cases M <;> interval_cases Mc <;> omega
  have hsplit : civilFromDays (daysFromCivil Y M 1) =
      ((civilFromDays (daysFromCivil Y M 1)).1,
       (civilFromDays (daysFromCivil Y M 1)).2.1,
       (civilFromDays (daysFromCivil Y M 1)).2.2) := rfl
  rw [hsplit, hYeq, hMc, hDc, hfin.1, hfin.2]

set_option maxHeartbeats 1000000 in
/-- **C1**: at 02:00:00 of the fall-back day the wall clock is ambiguous
(the daylight instant `86400·E` and the standard instant `86400·E + 3600`
both display it); `getCustomTime` resolves the hint-free call to the
standard instant, detects the ambiguity, and returns `false` with the
fields of the standard candidate. -/
theorem fallback_ambiguity_policy (Y : ℤ) (h1 : 1972 ≤ Y) (h2 : Y ≤ 2037) :
    (civilFromDays (lastSunOct Y)).1 = Y ∧
    localtime (86400 * lastSunOct Y) =
      ⟨(civilFromDays (lastSunOct Y)).1, (civilFromDays (lastSunOct Y)).2.1,
       (civilFromDays (lastSunOct Y)).2.2, 2, 0, 0, 1⟩ ∧
    localtime (86400 * lastSunOct Y + 3600) =
      ⟨(civilFromDays (lastSunOct Y)).1, (civilFromDays (lastSunOct Y)).2.1,
       (civilFromDays (lastSunOct Y)).2.2, 2, 0, 0, 0⟩ ∧
    getCustomTime (civilFromDays (lastSunOct Y)).1 (civilFromDays (lastSunOct Y)).2.1
      (civilFromDays (lastSunOct Y)).2.2 2 0 0 =
      (false, localtime (86400 * lastSunOct Y + 3600)) := by
  have hyf := yearFacts Y (by omega) (by omega)
  have hJlo := J_mono 1972 Y (by norm_num) (by omega) (by omega)
  have hJhi := J_mono Y 2037 (by omega) (by omega) (by norm_num)
  have hJv := Jval
  obtain ⟨hrt, -, -, -, -, hYc1, hYc2, hJa, hJb⟩ :=
    civil_decomp (lastSunOct Y) (by omega) (by omega)
  have hYeq : (civilFromDays (lastSunOct Y)).1 = Y :=
    year_unique (lastSunOct Y) (civilFromDays (lastSunOct Y)).1 Y
      ⟨by omega, by omega⟩ ⟨by omega, by omega⟩ ⟨hJa, hJb⟩ ⟨by omega, by omega⟩
  have hA : localtime (86400 * lastSunOct Y) =
      ⟨(civilFromDays (lastSunOct Y)).1, (civilFromDays (lastSunOct Y)).2.1,
       (civilFromDays (lastSunOct Y)).2.2, 2, 0, 0, 1⟩ := by
    unfold localtime isdstUtc
    dsimp only
    have q1 : 86400 * lastSunOct Y / 86400 = lastSunOct Y := by omega
    simp only [q1, changeStart_eq, changeEnd_eq, hYeq]
    have hcond : 86400 * lastSunMar Y + 3600 ≤ 86400 * lastSunOct Y ∧
        86400 * lastSunOct Y < 86400 * lastSunOct Y + 3600 := by omega
    simp only [if_pos hcond]
    have q2 : (86400 * lastSunOct Y + 7200) / 86400 = lastSunOct Y := by omega
    have q3 : (86400 * lastSunOct Y + 7200) % 86400 = 7200 := by omega
    simp only [q2, q3, hYeq]
    simp only [Tm.mk.injEq]
    norm_num
  have hB : localtime (86400 * lastSunOct Y + 3600) =
      ⟨(civilFromDays (lastSunOct Y)).1, (civilFromDays (lastSunOct Y)).2.1,
       (civilFromDays (lastSunOct Y)).2.2, 2, 0, 0, 0⟩ := by
    unfold localtime isdstUtc
    dsimp only
    have q1 : (86400 * lastSunOct Y + 3600) / 86400 = lastSunOct Y := by omega
    simp only [q1, changeStart_eq, changeEnd_eq, hYeq]
    have hcond : ¬(86400 * lastSunMar Y + 3600 ≤ 86400 * lastSunOct Y + 3600 ∧
        86400 * lastSunOct Y + 3600 < 86400 * lastSunOct Y + 3600) := by omega
    simp only [if_neg hcond]
    have eL : 86400 * lastSunOct Y + 3600 + 3600 = 86400 * lastSunOct Y + 7200 := by ring
    simp only [eL]
    have q2 : (86400 * lastSunOct Y + 7200) / 86400 = lastSunOct Y := by omega
    have q3 : (86400 * lastSunOct Y + 7200) % 86400 = 7200 := by omega
    simp only [q2, q3, hYeq]
    simp only [Tm.mk.injEq]
    norm_num
  have hmk1 : mktime ⟨(civilFromDays (lastSunOct Y)).1, (civilFromDays (lastSunOct Y)).2.1,
      (civilFromDays (lastSunOct Y)).2.2, 2, 0, 0, 0⟩ =
      (86400 * lastSunOct Y + 3600,
       ⟨(civilFromDays (lastSunOct Y)).1, (civilFromDays (lastSunOct Y)).2.1,
        (civilFromDays (lastSunOct Y)).2.2, 2, 0, 0, 0⟩) := by
    unfold mktime wallSecsOf
    dsimp only
    rw [hrt, changeStart_eq, changeEnd_eq]
    have hh : ¬ ((0:ℤ) < 0) := by omega
    simp only [if_neg hh]
    have eW : 86400 * lastSunOct Y + 3600 * 2 + 60 * 0 + 0 =
        86400 * lastSunOct Y + 7200 := by ring
    rw [eW]
    have q1 : (86400 * lastSunOct Y + 7200) / 86400 = lastSunOct Y := by omega
    simp only [q1, hYeq]
    have hov : 86400 * lastSunOct Y + 3600 + 3600 ≤ 86400 * lastSunOct Y + 7200 ∧
        86400 * lastSunOct Y + 7200 < 86400 * lastSunOct Y + 3600 + 7200 := by omega
    simp only [if_pos hov]
    have q2 : (86400 * lastSunOct Y + 7200) % 86400 = 7200 := by omega
    simp only [q2]
    simp only [Prod.mk.injEq, Tm.mk.injEq]
    norm_num
    ring
  have hmk2 : (mktime ⟨(civilFromDays (lastSunOct Y)).1, (civilFromDays (lastSunOct Y)).2.1,
      (civilFromDays (lastSunOct Y)).2.2, 2 - 1, 0, 0, 0⟩).1 = 86400 * lastSunOct Y := by
    unfold mktime wallSecsOf
    dsimp only
    rw [hrt, changeStart_eq, changeEnd_eq]
    have hh : ¬ ((0:ℤ) < 0) := by omega
    simp only [if_neg hh]
    have eW : 86400 * lastSunOct Y + 3600 * (2 - 1) + 60 * 0 + 0 =
        86400 * lastSunOct Y + 3600 := by ring
    rw [eW]
    have q1 : (86400 * lastSunOct Y + 3600) / 86400 = lastSunOct Y := by omega
    simp only [q1, hYeq]
    have hov : ¬(86400 * lastSunOct Y + 3600 + 3600 ≤ 86400 * lastSunOct Y + 3600 ∧
        86400 * lastSunOct Y + 3600 < 86400 * lastSunOct Y + 3600 + 7200) := by omega
    have hcm : 86400 * lastSunMar Y + 3600 + 7200 ≤ 86400 * lastSunOct Y + 3600 ∧
        86400 * lastSunOct Y + 3600 < 86400 * lastSunOct Y + 3600 + 3600 := by omega
    simp only [if_neg hov, if_pos hcm]
    have hc2 : (1:ℤ) ≠ 0 ∧ (0:ℤ) ≤ 0 := by omega
    simp only [if_pos hc2]
    norm_num
    ring
  refine ⟨hYeq, hA, hB, ?_⟩
  unfold getCustomTime
  dsimp only
  rw [hmk1]
  dsimp only
  rw [hmk2, hA, hB]
  dsimp only
  norm_num

set_option maxHeartbeats 1000000 in
/-- Every month's first day lies in its year's January-1 window. -/
theorem monthStart_window (y mm : ℤ) (h1 : 1 ≤ mm) (h2 : mm ≤ 12) :
    daysFromCivil y 1 1 ≤ daysFromCivil y mm 1 ∧
    daysFromCivil y mm 1 < daysFromCivil (y + 1) 1 1 := by
  have s1 := monthStep y 1 (by omega) (by omega)
  have s2 := monthStep y 2 (by omega) (by omega)
  have s3 := monthStep y 3 (by omega) (by omega)
  have s4 := monthStep y 4 (by omega) (by omega)
  have s5 := monthStep y 5 (by omega) (by omega)
  have s6 := monthStep y 6 (by omega) (by omega)
  have s7 := monthStep y 7 (by omega) (by omega)
  have s8 := monthStep y 8 (by omega) (by omega)
  have s9 := monthStep y 9 (by omega) (by omega)
  have s10 := monthStep y 10 (by omega) (by omega)
  have s11 := monthStep y 11 (by omega) (by omega)
  have sy := yearStep y
  norm_num at s1 s2 s3 s4 s5 s6 s7 s8 s9 s10 s11
  have ml1 : monthLength y 1 = 31 := by unfold monthLength; norm_num
  have ml2 : monthLength y 2 = 28 ∨ monthLength y 2 = 29 := by
    unfold monthLength; split_ifs <;> omega
  have ml3 : monthLength y 3 = 31 := by unfold monthLength; norm_num
  have ml4 : monthLength y 4 = 30 := by unfold monthLength; norm_num
  have ml5 : monthLength y 5 = 31 := by unfold monthLength; norm_num
  have ml6 : monthLength y 6 = 30 := by unfold monthLength; norm_num
  have ml7 : monthLength y 7 = 31 := by unfold monthLength; norm_num
  have ml8 : monthLength y 8 = 31 := by unfold monthLength; norm_num
  have ml9 : monthLength y 9 = 30 := by unfold monthLength; norm_num
  have ml10 : monthLength y 10 = 31 := by unfold monthLength; norm_num
  have ml11 : monthLength y 11 = 30 := by unfold monthLength; norm_num
  have ml12 : monthLength y 12 = 31 := by unfold monthLength; norm_num
  interval_cases mm <;> omega

/-! ## Remaining claims and witnesses -/

theorem fallback_ambiguity_policy_witness :
    (1972:ℤ) ≤ 2024 ∧ (2024:ℤ) ≤ 2037 ∧
    getCustomTime 2024 10 27 2 0 0 = (false, ⟨2024, 10, 27, 2, 0, 0, 0⟩) := by
  have h := fallback_ambiguity_policy 2024 (by norm_num) (by norm_num)
  have e : civilFromDays (lastSunOct 2024) = (2024, 10, 27) := by decide
  rw [e] at h
  obtain ⟨-, -, hB, hg⟩ := h
  rw [hB] at hg
  exact ⟨by norm_num, by norm_num, by simpa using hg⟩

/-- **C2** (corrected): in the current `getTempoDayColor` every failed
exchange — timeout (negative `HTTPC_ERROR` code), any non-200 status
(including 400), or a JSON decode error — yields the `UNDEFINED` sentinel
itself, so the caller cannot distinguish a failure from the sentinel. -/
theorem undefined_on_all_failures (y m d : ℤ) (r : Response)
    (h : getJsonDocumentFromHTTPRequest r = false) :
    getTempoDayColor y m d r = UNDEFINED := by
  unfold getTempoDayColor
  rw [h]
  simp

theorem undefined_on_all_failures_witness :
    getJsonDocumentFromHTTPRequest ⟨500, none⟩ = false ∧
    getTempoDayColor 2024 2 12 ⟨500, none⟩ = UNDEFINED :=
  ⟨rfl, undefined_on_all_failures 2024 2 12 ⟨500, none⟩ rfl⟩

/-- **C2** counterexample to the claimed behaviour: a 500 status, a timeout
(`GET()` returning `HTTPC_ERROR_READ_TIMEOUT = -11`) and a decode error on
a 200 all produce exactly the `UNDEFINED` sentinel, not a distinguishable
failure outcome. -/
theorem failure_indistinguishable_cex :
    getTempoDayColor 2024 2 12 ⟨500, none⟩ = UNDEFINED ∧
    getTempoDayColor 2024 2 12 ⟨-11, none⟩ = UNDEFINED ∧
    getTempoDayColor 2024 2 12 ⟨200, none⟩ = UNDEFINED :=
  ⟨rfl, rfl, rfl⟩

/-- **C3**: HTTP status 400 is mapped to the `UNDEFINED` sentinel — a valid
result, not a failure — by the current `getTempoDayColor` (whatever the
body holds), and the older variant even reports success (`true`) with the
sentinel written for a 400. -/
theorem http400_yields_undefined (y m d : ℤ) (body : Option Json) :
    getTempoDayColor y m d ⟨400, body⟩ = UNDEFINED ∧
    getTempoDayColorV1 ⟨400, body⟩ = (true, some UNDEFINED) := by
  constructor
  · unfold getTempoDayColor getJsonDocumentFromHTTPRequest
    norm_num
  · unfold getTempoDayColorV1
    norm_num

set_option maxHeartbeats 1000000 in
/-- **C4**: the two window endpoints `getTempoDayColor` resolves for a
request on civil day `D` of the era are exactly 24 civil hours apart
(86400 wall-clock seconds), each endpoint's DST flag is the local DST
status of its own midnight, and whenever the two flags agree — every date
for which neither midnight straddles a transition — the two endpoints
carry the identical printed UTC offset. -/
theorem window_24_civil_hours (y m d D : ℤ) (hW : daysFromCivil y m d = D)
    (hD1 : 367 ≤ D) (hD2 : D + 1 ≤ 24800) :
    wallSecsOf (getCustomTime y m (d + 1) 0 0 0).2 =
      wallSecsOf (getCustomTime y m d 0 0 0).2 + 86400 ∧
    (getCustomTime y m d 0 0 0).2.isdst =
      (if lastSunMar (civilFromDays D).1 < D ∧ D ≤ lastSunOct (civilFromDays D).1
       then 1 else 0) ∧
    (getCustomTime y m (d + 1) 0 0 0).2.isdst =
      (if lastSunMar (civilFromDays (D + 1)).1 < D + 1 ∧
          D + 1 ≤ lastSunOct (civilFromDays (D + 1)).1 then 1 else 0) ∧
    ((getCustomTime y m d 0 0 0).2.isdst = (getCustomTime y m (d + 1) 0 0 0).2.isdst →
      zOffset (getCustomTime y m d 0 0 0).2 = zOffset (getCustomTime y m (d + 1) 0 0 0).2) := by
  have hW1 : daysFromCivil y m (d + 1) = D + 1 := by
    have l1 := days_lin y m d
    have l2 := days_lin y m (d + 1)
    omega
  obtain ⟨hrt, -, -, -, -, -, -, -, -⟩ := civil_decomp D (by omega) (by omega)
  obtain ⟨hrt2, -, -, -, -, -, -, -, -⟩ := civil_decomp (D + 1) (by omega) (by omega)
  have h1 := midnight_master y m d D hW (by omega) (by omega)
  have h2 := midnight_master y m (d + 1) (D + 1) hW1 (by omega) (by omega)
  rw [h1, h2]
  refine ⟨?_, rfl, rfl, ?_⟩
  · unfold wallSecsOf
    dsimp only
    rw [hrt, hrt2]
    ring
  · intro h
    dsimp only at h ⊢
    unfold zOffset
    dsimp only
    rw [h]

theorem window_24_civil_hours_witness :
    daysFromCivil 2024 2 12 = 19765 ∧ (367:ℤ) ≤ 19765 ∧ (19765:ℤ) + 1 ≤ 24800 ∧
    (wallSecsOf (getCustomTime 2024 2 (12 + 1) 0 0 0).2 =
      wallSecsOf (getCustomTime 2024 2 12 0 0 0).2 + 86400 ∧
    (getCustomTime 2024 2 12 0 0 0).2.isdst =
      (if lastSunMar (civilFromDays 19765).1 < 19765 ∧
          (19765:ℤ) ≤ lastSunOct (civilFromDays 19765).1 then 1 else 0) ∧
    (getCustomTime 2024 2 (12 + 1) 0 0 0).2.isdst =
      (if lastSunMar (civilFromDays (19765 + 1)).1 < 19765 + 1 ∧
          (19765:ℤ) + 1 ≤ lastSunOct (civilFromDays (19765 + 1)).1 then 1 else 0) ∧
    ((getCustomTime 2024 2 12 0 0 0).2.isdst = (getCustomTime 2024 2 (12 + 1) 0 0 0).2.isdst →
      zOffset (getCustomTime 2024 2 12 0 0 0).2 =
        zOffset (getCustomTime 2024 2 (12 + 1) 0 0 0).2)) :=
  ⟨by decide, by norm_num, by norm_num,
   window_24_civil_hours 2024 2 12 19765 (by decide) (by norm_num) (by norm_num)⟩

set_option maxRecDepth 100000 in
/-- **C5**: with the configured zone `CET-1CEST,M3.5.0,M10.5.0/3`, the
query URL built for 2024-02-12 carries start `2024-02-12T00:00:00+01:00`
and end `2024-02-13T00:00:00+01:00` in the `start_date`/`end_date` slots. -/
theorem feb12_window_url :
    TIME_ZONE = "CET-1CEST,M3.5.0,M10.5.0/3" ∧
    getTempoUrl 2024 2 12 =
      "https://digital.iservices.rte-france.com/open_api/tempo_like_supply_contract/v1/tempo_like_calendars?start_date=2024-02-12T00:00:00+01:00&end_date=2024-02-13T00:00:00+01:00" :=
  ⟨rfl, by decide⟩

set_option maxHeartbeats 1000000 in
/-- **C6**: resolving the window end of the last day of any month — the
call with `day + 1`, which exceeds the month length — rolls over into the
first day of the following month (January of the following year after
December) purely through the calendar normalisation inside `mktime`;
e.g. `m = 2, y = 2024` resolves day 30 of February to March 1. -/
theorem month_rollover (y m : ℤ) (h1 : 1972 ≤ y) (h2 : y ≤ 2035)
    (hm1 : 1 ≤ m) (hm2 : m ≤ 12) :
    ((getCustomTime y m (monthLength y m + 1) 0 0 0).2.year,
     (getCustomTime y m (monthLength y m + 1) 0 0 0).2.mon,
     (getCustomTime y m (monthLength y m + 1) 0 0 0).2.mday) =
      ((if m = 12 then y + 1 else y), (if m = 12 then 1 else m + 1), 1) ∧
    (getCustomTime y m (monthLength y m + 1) 0 0 0).1 = true := by
  have hJv := Jval
  by_cases m12 : m = 12
  · subst m12
    have sy := yearStep y
    have ml12 : monthLength y 12 = 31 := by unfold monthLength; norm_num
    have hX : daysFromCivil y 12 (monthLength y 12 + 1) = daysFromCivil (y + 1) 1 1 := by
      have hl := days_lin y 12 (monthLength y 12 + 1)
      omega
    have hw := monthStart_window (y + 1) 1 (by omega) (by omega)
    have hJlo := J_mono 1972 (y + 1) (by norm_num) (by omega) (by omega)
    have hJhi := J_mono (y + 1 + 1) 2037 (by omega) (by omega) (by norm_num)
    have hcf := civil_first (y + 1) 1 (by omega) (by omega) (by omega) (by omega)
    have hmm := midnight_master y 12 (monthLength y 12 + 1) (daysFromCivil (y + 1) 1 1)
      hX (by omega) (by omega)
    rw [hmm]
    simp only [hcf]
    norm_num
  · have hs := monthStep y m (by omega) (by omega)
    have hX : daysFromCivil y m (monthLength y m + 1) = daysFromCivil y (m + 1) 1 := by
      have hl := days_lin y m (monthLength y m + 1)
      omega
    have hw := monthStart_window y (m + 1) (by omega) (by omega)
    have hJlo := J_mono 1972 y (by norm_num) (by omega) (by omega)
    have hJhi := J_mono (y + 1) 2037 (by omega) (by omega) (by norm_num)
    have hcf := civil_first y (m + 1) (by omega) (by omega) (by omega) (by omega)
    have hmm := midnight_master y m (monthLength y m + 1) (daysFromCivil y (m + 1) 1)
      hX (by omega) (by omega)
    rw [hmm]
    simp only [hcf]
    simp only [if_neg m12]
    norm_num

theorem month_rollover_witness :
    (1972:ℤ) ≤ 2024 ∧ (2024:ℤ) ≤ 2035 ∧ (1:ℤ) ≤ 2 ∧ (2:ℤ) ≤ 12 ∧
    (((getCustomTime 2024 2 (monthLength 2024 2 + 1) 0 0 0).2.year,
      (getCustomTime 2024 2 (monthLength 2024 2 + 1) 0 0 0).2.mon,
      (getCustomTime 2024 2 (monthLength 2024 2 + 1) 0 0 0).2.mday) =
       ((if (2:ℤ) = 12 then 2024 + 1 else 2024), (if (2:ℤ) = 12 then 1 else 2 + 1), 1) ∧
     (getCustomTime 2024 2 (monthLength 2024 2 + 1) 0 0 0).1 = true) :=
  ⟨by norm_num, by norm_num, by norm_num, by norm_num,
   month_rollover 2024 2 (by norm_num) (by norm_num) (by norm_num) (by norm_num)⟩

/-- **C7**: the colour pipeline is independent of the two `bool`s
`getCustomTime` returns for the window endpoints — the code discards them,
splices the resolved fields into the URL, and issues the request anyway,
so a DST-ambiguity failure is never observable at this interface. -/
theorem ambiguity_flags_discarded (b1 b2 : Bool) (y m d : ℤ) (auth : Option String)
    (net : Request → Response) :
    getTempoDayColorFlagged b1 b2 y m d auth net = getTempoDayColorRun y m d auth net := rfl

/-- **C8**: the access token is opaque to the request engine: the
`Authorization` value is `"Bearer "` followed by the raw token characters,
and the day-colour outcome depends on the token only through the network's
reaction to that header — two tokens drawing the same response yield the
same result, with no token parsing or validation anywhere on the path. -/
theorem token_opaque (t1 t2 : String) (y m d : ℤ) (net : Request → Response)
    (h : net (tempoRequest y m d (some (bearerOf t1))) =
      net (tempoRequest y m d (some (bearerOf t2)))) :
    bearerOf t1 = "Bearer " ++ t1 ∧
    getTempoDayColorRun y m d (some (bearerOf t1)) net =
      getTempoDayColorRun y m d (some (bearerOf t2)) net := by
  refine ⟨rfl, ?_⟩
  unfold getTempoDayColorRun
  rw [h]

theorem token_opaque_witness :
    (fun _ : Request => (⟨200, none⟩ : Response)) (tempoRequest 2024 2 12 (some (bearerOf "tokA"))) =
      (fun _ : Request => (⟨200, none⟩ : Response)) (tempoRequest 2024 2 12 (some (bearerOf "tokB"))) ∧
    (bearerOf "tokA" = "Bearer " ++ "tokA" ∧
     getTempoDayColorRun 2024 2 12 (some (bearerOf "tokA")) (fun _ => ⟨200, none⟩) =
       getTempoDayColorRun 2024 2 12 (some (bearerOf "tokB")) (fun _ => ⟨200, none⟩)) :=
  ⟨rfl, token_opaque "tokA" "tokB" 2024 2 12 (fun _ => ⟨200, none⟩) rfl⟩

/-- **C9**: the disconnect handler ignores reason 8 (the supervisor's own
`WiFi.disconnect()`) and for every other reason immediately re-runs the
connect procedure with the configured credentials and timeout. -/
theorem disconnect_autoheal (reason : ℤ) :
    WiFiDisconnected reason =
      if reason = 8 then [] else initWiFi WIFI_SSID WIFI_PASSWORD WIFI_TIMEOUT := by
  unfold WiFiDisconnected
  by_cases h : reason = 8
  · simp [h]
  · simp [h]

/-- **C10**: when token acquisition fails, `setup` performs exactly the
boot, Wi-Fi bring-up and the single token request, prints the error and
enters deep sleep — a terminal action — issuing no day-colour query and
making no retry. -/
theorem token_failure_halts (tokenResp : Response) (today : ℤ × ℤ × ℤ)
    (h : getJsonDocumentFromHTTPRequest tokenResp = false) :
    setupTrace tokenResp today =
      [.serialBegin, .onEventRegister] ++ initWiFi WIFI_SSID WIFI_PASSWORD WIFI_TIMEOUT
        ++ [.httpGet TOKEN_URL (some BASIC_AUTH), .printTokenError, .deepSleep] ∧
    (setupTrace tokenResp today).getLast? = some .deepSleep ∧
    (setupTrace tokenResp today).all (fun a => !a.isTempoQuery) = true := by
  have e : setupTrace tokenResp today =
      [.serialBegin, .onEventRegister] ++ initWiFi WIFI_SSID WIFI_PASSWORD WIFI_TIMEOUT
        ++ [.httpGet TOKEN_URL (some BASIC_AUTH), .printTokenError, .deepSleep] := by
    unfold setupTrace
    rw [h]
    simp
  refine ⟨e, ?_, ?_⟩
  · rw [e]; rfl
  · rw [e]; rfl

theorem token_failure_halts_witness :
    getJsonDocumentFromHTTPRequest ⟨500, none⟩ = false ∧
    (setupTrace ⟨500, none⟩ (2024, 2, 12) =
      [.serialBegin, .onEventRegister] ++ initWiFi WIFI_SSID WIFI_PASSWORD WIFI_TIMEOUT
        ++ [.httpGet TOKEN_URL (some BASIC_AUTH), .printTokenError, .deepSleep] ∧
     (setupTrace ⟨500, none⟩ (2024, 2, 12)).getLast? = some .deepSleep ∧
     (setupTrace ⟨500, none⟩ (2024, 2, 12)).all (fun a => !a.isTempoQuery) = true) :=
  ⟨rfl, token_failure_halts ⟨500, none⟩ (2024, 2, 12) rfl⟩

end Tempo
